import Mathlib

/-!
Shallow embedding of the SYNCRO subscription-renewal Soroban contract
(src/contracts/contracts/subscription_renewal/src/lib.rs).

Modelling conventions:
- Ledger heights (`u32` sequence numbers), timestamps (`u64` seconds),
  ids (`u64`) and counters (`u32`) are `Nat`; token amounts (`i128`) are `Int`.
- `Address` is an abstract identifier modelled as `Nat`.
- The host's SHA-256 digest over the XDR encoding of
  (merchant, amount, frequency, spending_cap) is modelled by the injective
  constructor `integrityHash`, packaging the four inputs: byte-for-byte
  digest equality corresponds to equality of the inputs (collisions ignored).
- Persistent storage is a record of total functions from keys to `Option`
  values; `upd` is pointwise update.
- A Rust `panic!` aborts the Soroban invocation and rolls back every write
  and event of that invocation; a panicking entry point is therefore a
  function into `Except String`, returning `.error msg` and *no* state: the
  caller keeps the pre-state (see `renewTx`).
- `require_auth` for an address `a` is modelled by a parameter
  `auths : Address → Bool` telling which addresses carry a valid signature
  proof in the current invocation; entry points that never call
  `require_auth` in the source take the parameter and ignore it.
- Each entry point also returns the list of events it publishes.
-/

abbrev Address := Nat

/-- Pointwise update of a total map, as used for persistent-storage writes. -/
def upd {α β : Type} [DecidableEq α] (f : α → β) (a : α) (v : β) : α → β :=
  fun x => if x = a then v else f x

theorem upd_self {α β : Type} [DecidableEq α] (f : α → β) (a : α) (v : β) :
    upd f a v a = v := by
  simp [upd]

theorem upd_ne {α β : Type} [DecidableEq α] (f : α → β) (a : α) (v : β)
    (x : α) (h : x ≠ a) : upd f a v x = f x := by
  simp [upd, h]

/-- `SubscriptionState` from the source: the four subscription states. -/
inductive SubscriptionState where
  | Active
  | Retrying
  | Failed
  | Cancelled
deriving DecidableEq, Repr

/-- Model of the 32-byte integrity digest: the SHA-256 of the XDR encoding of
(merchant, amount, frequency, spending_cap), represented by its preimage. -/
structure Digest where
  dMerchant : Address
  dAmount : Int
  dFrequency : Nat
  dSpendingCap : Int
deriving DecidableEq, Repr

/-- `env.crypto().sha256` over the encoded (merchant, amount, frequency,
spending_cap) vector, as computed in `init_sub` and in `renew` step 7. -/
def integrityHash (merchant : Address) (amount : Int) (frequency : Nat)
    (spending_cap : Int) : Digest :=
  ⟨merchant, amount, frequency, spending_cap⟩

/-- `SubscriptionData` from the source. -/
structure SubscriptionData where
  owner : Address
  merchant : Address
  amount : Int
  frequency : Nat
  spending_cap : Int
  integrity_hash : Digest
  state : SubscriptionState
  failure_count : Nat
  last_attempt_ledger : Nat
deriving DecidableEq, Repr

/-- `LifecycleTimestamps` from the source. -/
structure LifecycleTimestamps where
  created_at : Nat
  activated_at : Nat
  last_renewed_at : Nat
  canceled_at : Nat
deriving DecidableEq, Repr

/-- `RenewalApproval` from the source. -/
structure RenewalApproval where
  sub_id : Nat
  max_spend : Int
  expires_at : Nat
  used : Bool
deriving DecidableEq, Repr

/-- `RenewalLockData` from the source. -/
structure RenewalLockData where
  locked_at : Nat
  lock_timeout : Nat
deriving DecidableEq, Repr

/-- The contract events published by the entry points (`#[contractevent]`
structs plus the `record_log` placeholder event). -/
inductive Event where
  | RenewalSuccess (sub_id : Nat) (owner : Address)
  | RenewalFailed (sub_id : Nat) (failure_count : Nat) (ledger : Nat)
  | StateTransition (sub_id : Nat) (new_state : SubscriptionState)
  | PauseToggled (paused : Bool)
  | ApprovalCreated (sub_id : Nat) (approval_id : Nat) (max_spend : Int)
      (expires_at : Nat)
  | ApprovalRejected (sub_id : Nat) (approval_id : Nat) (reason : Nat)
  | DuplicateRenewalRejected (sub_id : Nat) (cycle_id : Nat)
  | IntegrityViolation (sub_id : Nat)
  | RenewalLockAcquired (sub_id : Nat) (locked_at : Nat) (lock_timeout : Nat)
  | RenewalLockReleased (sub_id : Nat) (released_at : Nat)
  | RenewalLockExpired (sub_id : Nat) (original_locked_at : Nat)
      (expired_at : Nat)
  | LifecycleTimestampUpdated (sub_id : Nat) (event_kind : Nat)
      (timestamp : Nat)
  | Log (sub_id : Nat) (event_type : Nat) (msg : String)
deriving DecidableEq, Repr

/-- The contract's persistent and instance storage: `Admin`, `Paused` and
`LoggingContract` instance entries, plus the persistent maps keyed by
subscription id / (sub_id, approval_id). `none` means the key is absent. -/
structure ContractState where
  admin : Option Address
  paused : Option Bool
  loggingContract : Option Address
  subs : Nat → Option SubscriptionData
  lifecycles : Nat → Option LifecycleTimestamps
  approvals : Nat × Nat → Option RenewalApproval
  cycles : Nat → Option Nat
  locks : Nat → Option RenewalLockData

/-- `is_paused`: reads the pause flag, defaulting to `false` when absent. -/
def is_paused (s : ContractState) : Bool :=
  s.paused.getD false

/-- `record_log`: emits the placeholder log event only when a logging
contract address is configured. -/
def record_log (s : ContractState) (sub_id : Nat) (event_type : Nat)
    (msg : String) : List Event :=
  match s.loggingContract with
  | some _ => [Event.Log sub_id event_type msg]
  | none => []

/-- `init`: one-time admin initialization. -/
def init (auths : Address → Bool) (admin : Address) (s : ContractState) :
    Except String (ContractState × List Event) :=
  let _ := auths
  match s.admin with
  | some _ => .error "Already initialized"
  | none => .ok ({ s with admin := some admin, paused := some false }, [])

/-- `set_paused`: admin-only pause toggle (`require_admin` then write). -/
def set_paused (auths : Address → Bool) (pausedArg : Bool)
    (s : ContractState) : Except String (ContractState × List Event) :=
  match s.admin with
  | none => .error "Contract not initialized"
  | some admin =>
      if auths admin = false then .error "Unauthorized"
      else
        .ok ({ s with paused := some pausedArg },
          [Event.PauseToggled pausedArg])

/-- `acquire_renewal_lock`: take the per-subscription renewal lock,
rejecting while an unexpired lock exists and emitting an expiry event
before overwriting an expired one. Never calls `require_auth`. -/
def acquire_renewal_lock (auths : Address → Bool) (current_ledger : Nat)
    (sub_id : Nat) (lock_timeout : Nat) (s : ContractState) :
    Except String (ContractState × List Event) :=
  let _ := auths
  if is_paused s then .error "Protocol is paused"
  else
    let expiryEvents : Option (List Event) :=
      match s.locks sub_id with
      | some existing =>
          if current_ledger < existing.locked_at + existing.lock_timeout then
            none
          else
            some [Event.RenewalLockExpired sub_id existing.locked_at
              current_ledger]
      | none => some []
    match expiryEvents with
    | none => .error "Renewal lock active"
    | some evs =>
        let lock_data : RenewalLockData :=
          { locked_at := current_ledger, lock_timeout := lock_timeout }
        .ok ({ s with locks := upd s.locks sub_id (some lock_data) },
          evs ++ [Event.RenewalLockAcquired sub_id current_ledger
            lock_timeout])

/-- `release_renewal_lock`: delete the lock, failing when absent. -/
def release_renewal_lock (current_ledger : Nat) (sub_id : Nat)
    (s : ContractState) : Except String (ContractState × List Event) :=
  match s.locks sub_id with
  | none => .error "No renewal lock to release"
  | some _ =>
      .ok ({ s with locks := upd s.locks sub_id none },
        [Event.RenewalLockReleased sub_id current_ledger])

/-- `get_renewal_lock`: pure read. -/
def get_renewal_lock (sub_id : Nat) (s : ContractState) :
    Option RenewalLockData :=
  s.locks sub_id

/-- `init_sub`: unconditionally (re)creates the subscription record with
state Active, zero counters and a freshly computed integrity digest, and
resets the lifecycle timestamps. Performs no authentication and no
existence check; total (never panics). `now` is `env.ledger().timestamp()`. -/
def init_sub (auths : Address → Bool) (now : Nat) (owner : Address)
    (merchant : Address) (amount : Int) (frequency : Nat)
    (spending_cap : Int) (sub_id : Nat) (s : ContractState) :
    ContractState × List Event :=
  let _ := auths
  let data : SubscriptionData :=
    { owner := owner, merchant := merchant, amount := amount,
      frequency := frequency, spending_cap := spending_cap,
      integrity_hash := integrityHash merchant amount frequency spending_cap,
      state := SubscriptionState.Active, failure_count := 0,
      last_attempt_ledger := 0 }
  let lifecycle : LifecycleTimestamps :=
    { created_at := now, activated_at := now, last_renewed_at := 0,
      canceled_at := 0 }
  let s1 : ContractState :=
    { s with
      subs := upd s.subs sub_id (some data),
      lifecycles := upd s.lifecycles sub_id (some lifecycle) }
  (s1,
    [Event.LifecycleTimestampUpdated sub_id 1 now,
     Event.LifecycleTimestampUpdated sub_id 2 now]
      ++ record_log s1 sub_id 2 "Subscription initialized")

/-- `cancel_sub`: owner-authenticated cancellation; fails when the record is
absent or already Cancelled; sets state to Cancelled and canceled_at. -/
def cancel_sub (auths : Address → Bool) (now : Nat) (sub_id : Nat)
    (s : ContractState) : Except String (ContractState × List Event) :=
  match s.subs sub_id with
  | none => .error "Subscription not found"
  | some data =>
      if auths data.owner = false then .error "Unauthorized"
      else if data.state = SubscriptionState.Cancelled then
        .error "Subscription already cancelled"
      else
        match s.lifecycles sub_id with
        | none => .error "Lifecycle data not found"
        | some lifecycle =>
            let data1 := { data with state := SubscriptionState.Cancelled }
            let lifecycle1 := { lifecycle with canceled_at := now }
            let s1 : ContractState :=
              { s with
                subs := upd s.subs sub_id (some data1),
                lifecycles := upd s.lifecycles sub_id (some lifecycle1) }
            .ok (s1,
              [Event.LifecycleTimestampUpdated sub_id 4 now]
                ++ record_log s1 sub_id 5 "Subscription cancelled"
                ++ [Event.StateTransition sub_id
                      SubscriptionState.Cancelled])

/-- `approve_renewal`: owner-authenticated; creates or overwrites the
approval record at (sub_id, approval_id) with used = false. -/
def approve_renewal (auths : Address → Bool) (sub_id : Nat)
    (approval_id : Nat) (max_spend : Int) (expires_at : Nat)
    (s : ContractState) : Except String (ContractState × List Event) :=
  match s.subs sub_id with
  | none => .error "Subscription not found"
  | some data =>
      if auths data.owner = false then .error "Unauthorized"
      else
        let approval : RenewalApproval :=
          { sub_id := sub_id, max_spend := max_spend,
            expires_at := expires_at, used := false }
        let approvals1 :=
          upd s.approvals (sub_id, approval_id) (some approval)
        .ok ({ s with approvals := approvals1 },
          [Event.ApprovalCreated sub_id approval_id max_spend expires_at])

/-- `consume_approval` (internal): validates and consumes an approval,
returning the updated approval map, the published events and the success
flag. Never aborts the invocation itself. -/
def consume_approval (current_ledger : Nat) (sub_id : Nat)
    (approval_id : Nat) (amount : Int)
    (approvals : Nat × Nat → Option RenewalApproval) :
    (Nat × Nat → Option RenewalApproval) × List Event × Bool :=
  match approvals (sub_id, approval_id) with
  | none => (approvals, [Event.ApprovalRejected sub_id approval_id 4], false)
  | some approval =>
      if approval.used then
        (approvals, [Event.ApprovalRejected sub_id approval_id 2], false)
      else if approval.expires_at < current_ledger then
        (approvals, [Event.ApprovalRejected sub_id approval_id 1], false)
      else if approval.max_spend < amount then
        (approvals, [Event.ApprovalRejected sub_id approval_id 3], false)
      else
        (upd approvals (sub_id, approval_id)
          (some { approval with used := true }), [], true)

/-- `renew`: the renewal orchestrator. Checks pause, record presence,
Failed state, lock validity, cycle duplication, cooldown, approval
consumption and integrity, then branches on `succeed`. `current_ledger` is
`env.ledger().sequence()` and `now` is `env.ledger().timestamp()`. Never
calls `require_auth`. -/
def renew (_auths : Address → Bool) (current_ledger : Nat) (now : Nat)
    (sub_id : Nat) (approval_id : Nat) (amount : Int) (max_retries : Nat)
    (cooldown_ledgers : Nat) (cycle_id : Nat) (succeed : Bool)
    (s : ContractState) : Except String (ContractState × List Event × Bool) :=
  -- 1. global pause
  if is_paused s then .error "Protocol is paused"
  else
    -- 2. load subscription data
    match s.subs sub_id with
    | none => .error "Subscription not found"
    | some data =>
        -- 3. failed state
        if data.state = SubscriptionState.Failed then
          .error "Subscription is in FAILED state"
        else
          -- 4. lock exists and is not expired
          match s.locks sub_id with
          | none => .error "Renewal lock required"
          | some ld =>
              if ld.locked_at + ld.lock_timeout ≤ current_ledger then
                .error "Renewal lock expired"
              -- 5. cycle guard (the rejection event is rolled back by the
              -- panic that immediately follows it)
              else if s.cycles sub_id = some cycle_id then
                .error "Duplicate renewal for cycle"
              -- 6. cooldown
              else if data.failure_count > 0 ∧
                  current_ledger < data.last_attempt_ledger +
                    cooldown_ledgers then
                .error "Cooldown period active"
              else
                -- 7. validate and consume approval
                if (consume_approval current_ledger sub_id approval_id
                    amount s.approvals).2.2 = false then
                  .error "Invalid or expired approval"
                else
                  -- 7bis. validate integrity hash
                  if integrityHash data.merchant data.amount data.frequency
                      data.spending_cap ≠ data.integrity_hash then
                    .error
                      "Subscription integrity violation: parameters tampered"
                  else if succeed then
                    match s.lifecycles sub_id with
                    | none => .error "Lifecycle data not found"
                    | some lifecycle =>
                        let previous_state := data.state
                        let data1 :=
                          { data with
                            state := SubscriptionState.Active,
                            failure_count := 0,
                            last_attempt_ledger := current_ledger }
                        let lifecycle1 :=
                          { lifecycle with
                            last_renewed_at := now,
                            activated_at :=
                              if previous_state = SubscriptionState.Retrying
                              then now else lifecycle.activated_at }
                        let s1 : ContractState :=
                          { s with
                            subs := upd s.subs sub_id (some data1),
                            approvals := (consume_approval current_ledger
                              sub_id approval_id amount s.approvals).1,
                            cycles := upd s.cycles sub_id (some cycle_id),
                            lifecycles := upd s.lifecycles sub_id
                              (some lifecycle1),
                            locks := upd s.locks sub_id none }
                        .ok (s1,
                          [Event.RenewalSuccess sub_id data.owner,
                           Event.LifecycleTimestampUpdated sub_id 3 now]
                            ++ (if previous_state =
                                  SubscriptionState.Retrying then
                                  [Event.LifecycleTimestampUpdated sub_id 2
                                    now]
                                else [])
                            ++ [Event.RenewalLockReleased sub_id
                                  current_ledger]
                            ++ record_log s1 sub_id 2 "Renewal successful",
                          true)
                  else
                    let fc := data.failure_count + 1
                    let newState :=
                      if fc > max_retries then SubscriptionState.Failed
                      else SubscriptionState.Retrying
                    let data1 :=
                      { data with
                        failure_count := fc,
                        last_attempt_ledger := current_ledger,
                        state := newState }
                    let s1 : ContractState :=
                      { s with
                        subs := upd s.subs sub_id (some data1),
                        approvals := (consume_approval current_ledger sub_id
                          approval_id amount s.approvals).1,
                        locks := upd s.locks sub_id none }
                    .ok (s1,
                      [Event.RenewalFailed sub_id fc current_ledger,
                       Event.StateTransition sub_id newState]
                        ++ (if fc > max_retries then
                              record_log s1 sub_id 3
                                "Renewal failed - max retries exceeded"
                            else
                              record_log s1 sub_id 4
                                "Renewal failed - scheduled for retry")
                        ++ [Event.RenewalLockReleased sub_id current_ledger],
                      false)

/-- Invocation-level semantics of `renew`: a panic aborts the transaction,
so an `.error` outcome commits nothing — the pre-state stands and no event
is published. -/
def renewTx (auths : Address → Bool) (current_ledger : Nat) (now : Nat)
    (sub_id : Nat) (approval_id : Nat) (amount : Int) (max_retries : Nat)
    (cooldown_ledgers : Nat) (cycle_id : Nat) (succeed : Bool)
    (s : ContractState) : ContractState × List Event × Option Bool :=
  match renew auths current_ledger now sub_id approval_id amount max_retries
      cooldown_ledgers cycle_id succeed s with
  | .ok (s1, evs, b) => (s1, evs, some b)
  | .error _ => (s, [], none)

/-- `get_sub`: pure read of the subscription record. -/
def get_sub (sub_id : Nat) (s : ContractState) : Option SubscriptionData :=
  s.subs sub_id

/-- `get_lifecycle`: pure read of the lifecycle timestamps. -/
def get_lifecycle (sub_id : Nat) (s : ContractState) :
    Option LifecycleTimestamps :=
  s.lifecycles sub_id

/-! ### Concrete states used by the scenario theorems -/

/-- An invocation in which every address carries a valid signature proof. -/
def auths0 : Address → Bool := fun _ => true

/-- Initialized, unpaused contract with empty persistent maps. -/
def baseState : ContractState :=
  { admin := some 9, paused := some false, loggingContract := none,
    subs := fun _ => none, lifecycles := fun _ => none,
    approvals := fun _ => none, cycles := fun _ => none,
    locks := fun _ => none }

/-- The subscription of the spec scenario (owner 1, merchant 2, amount 500,
frequency 86400, cap 1000), in the Active state. -/
def subActive : SubscriptionData :=
  { owner := 1, merchant := 2, amount := 500, frequency := 86400,
    spending_cap := 1000,
    integrity_hash := integrityHash 2 500 86400 1000,
    state := SubscriptionState.Active, failure_count := 0,
    last_attempt_ledger := 0 }

/-- Scenario lifecycle timestamps. -/
def lc0 : LifecycleTimestamps :=
  { created_at := 10, activated_at := 10, last_renewed_at := 0,
    canceled_at := 0 }

/-- Fresh scenario approval: max_spend 1000, expires at height 100. -/
def apFresh : RenewalApproval :=
  { sub_id := 1, max_spend := 1000, expires_at := 100, used := false }

/-- Scenario lock: acquired at height 5 with timeout 200. -/
def lock0 : RenewalLockData := { locked_at := 5, lock_timeout := 200 }

/-- Scenario state for subscription 1 with the given record, lifecycle
`lc0`, approval `apFresh` at (1, 1) and lock `lock0`. -/
def withSub (d : SubscriptionData) : ContractState :=
  { baseState with
    subs := upd baseState.subs 1 (some d),
    lifecycles := upd baseState.lifecycles 1 (some lc0),
    approvals := upd baseState.approvals (1, 1) (some apFresh),
    locks := upd baseState.locks 1 (some lock0) }

/-- Scenario state with subscription 1 Active. -/
def sOK : ContractState := withSub subActive

/-- Scenario state with subscription 1 Cancelled. -/
def sCancelledSub : ContractState :=
  withSub { subActive with state := SubscriptionState.Cancelled }

/-- Scenario state with subscription 1 Failed. -/
def sFailedSub : ContractState :=
  withSub { subActive with state := SubscriptionState.Failed }

/-- Scenario state whose stored digest does not match the record's current
parameters (merchant tampered from 2 to 3 in the digest preimage). -/
def sTampered : ContractState :=
  withSub { subActive with integrity_hash := integrityHash 3 500 86400 1000 }

/-- `sOK` with the successful-cycle marker of subscription 1 set to 7. -/
def sDup : ContractState :=
  { sOK with cycles := upd sOK.cycles 1 (some 7) }

/-- `sOK` with the approval at (1, 1) already consumed. -/
def sUsedApproval : ContractState :=
  { sOK with
    approvals := upd sOK.approvals (1, 1)
      (some { apFresh with used := true }) }

/-- A successful scenario renewal on `sOK` and its committed outcome. -/
def rSuccess : Except String (ContractState × List Event × Bool) :=
  renew auths0 50 123 1 1 500 3 10 7 true sOK

def rSuccessVal : ContractState × List Event × Bool :=
  rSuccess.toOption.getD (baseState, [], false)

/-- A failed (succeed = false) scenario renewal on `sOK` and its outcome. -/
def rFailure : Except String (ContractState × List Event × Bool) :=
  renew auths0 50 123 1 1 500 3 10 7 false sOK

def rFailureVal : ContractState × List Event × Bool :=
  rFailure.toOption.getD (baseState, [], true)

/-- A renewal of the Cancelled subscription on `sCancelledSub`. -/
def rUnCancel : Except String (ContractState × List Event × Bool) :=
  renew auths0 50 123 1 1 500 3 10 7 true sCancelledSub

def rUnCancelVal : ContractState × List Event × Bool :=
  rUnCancel.toOption.getD (baseState, [], false)

/-- Re-acquiring the expired scenario lock (5 + 200 ≤ 300). -/
def rAcq : Except String (ContractState × List Event) :=
  acquire_renewal_lock auths0 300 1 100 sOK

def rAcqVal : ContractState × List Event :=
  rAcq.toOption.getD (baseState, [])

/-- Cancelling subscription 1 on `sOK`. -/
def rCancel : Except String (ContractState × List Event) :=
  cancel_sub auths0 77 1 sOK

def rCancelVal : ContractState × List Event :=
  rCancel.toOption.getD (baseState, [])

/-- Re-approving the already-used approval (1, 1) on `sUsedApproval`. -/
def rReapprove : Except String (ContractState × List Event) :=
  approve_renewal auths0 1 1 1000 100 sUsedApproval

def rReapproveVal : ContractState × List Event :=
  rReapprove.toOption.getD (baseState, [])

/-! ### The retry scenario of §8: repeated failed renewals, max_retries 3 -/

/-- Start state of the retry scenario: subscription 1 Active, five fresh
approvals (1, 1) … (1, 5) with max_spend 1000 and expiry 1000, no lock. -/
def c4Start : ContractState :=
  { baseState with
    subs := upd baseState.subs 1 (some subActive),
    lifecycles := upd baseState.lifecycles 1 (some lc0),
    approvals := fun k =>
      if k = (1, 1) ∨ k = (1, 2) ∨ k = (1, 3) ∨ k = (1, 4) ∨ k = (1, 5) then
        some { sub_id := 1, max_spend := 1000, expires_at := 1000,
               used := false }
      else none }

/-- One retry-scenario step: acquire the lock at height `h` (timeout 200),
then run a failed renewal at height `h + 1` with approval `aid`, amount 500,
max_retries 3, cooldown 10, cycle 7. -/
def c4Step (h aid : Nat) (s : ContractState) : Option ContractState :=
  match acquire_renewal_lock auths0 h 1 200 s with
  | .error _ => none
  | .ok (s1, _) =>
      match renew auths0 (h + 1) 0 1 aid 500 3 10 7 false s1 with
      | .error _ => none
      | .ok (s2, _, _) => some s2

/-- State after three consecutive failed renewals at heights 11, 31, 51
(each past the 10-ledger cooldown of the previous attempt). -/
def c4After3 : Option ContractState :=
  ((c4Step 10 1 c4Start).bind (c4Step 30 2)).bind (c4Step 50 3)

/-- State after the fourth consecutive failed renewal at height 71. -/
def c4After4 : Option ContractState :=
  c4After3.bind (c4Step 70 4)

/-- The fifth renewal attempt (lock re-acquired at height 90, renew at 91)
after the four failures. -/
def c4Fifth : Option (Except String (ContractState × List Event × Bool)) :=
  c4After4.map fun s =>
    match acquire_renewal_lock auths0 90 1 200 s with
    | .error e => .error e
    | .ok (s1, _) => renew auths0 91 0 1 5 500 3 10 7 false s1

/-- `sOK` with an additional already-used approval at (1, 2). -/
def sUsedPlus : ContractState :=
  { sOK with
    approvals := upd sOK.approvals (1, 2)
      (some { apFresh with used := true }) }

/-- The successful scenario renewal run on `sUsedPlus` (consuming the
fresh approval (1, 1)) and its outcome. -/
def rUsedPlus : Except String (ContractState × List Event × Bool) :=
  renew auths0 50 123 1 1 500 3 10 7 true sUsedPlus

def rUsedPlusVal : ContractState × List Event × Bool :=
  rUsedPlus.toOption.getD (baseState, [], false)

/-! ### Helper lemmas -/

/-- An approval already marked used is never written by `consume_approval`. -/
theorem consume_preserves_used (cl sub_id approval_id : Nat) (amount : Int)
    (approvals : Nat × Nat → Option RenewalApproval) (k : Nat × Nat)
    (h : (approvals k).map RenewalApproval.used = some true) :
    (consume_approval cl sub_id approval_id amount approvals).1 k
      = approvals k := by
  cases hap : approvals (sub_id, approval_id) with
  | none => simp [consume_approval, hap]
  | some ap =>
      by_cases hu : ap.used = true
      · simp [consume_approval, hap, hu]
      · by_cases he : ap.expires_at < cl
        · simp [consume_approval, hap, hu, he]
        · by_cases hm : ap.max_spend < amount
          · simp [consume_approval, hap, hu, he, hm]
          · by_cases hk : k = (sub_id, approval_id)
            · subst hk
              rw [hap] at h
              simp at h
              exact absurd h hu
            · simp [consume_approval, hap, hu, he, hm, upd_ne _ _ _ _ hk]

/-! ### Claims -/

/-- C6: `consume_approval` fails with exactly one reason by the precedence
NotFound (4), then Used (2), then Expired (1), then AmountExceeded (3),
each failure returning exactly the rejection event carrying that reason; a
successfully consumed approval fails with Used on any second consumption
regardless of amount and height, and an expired approval never fails with
AmountExceeded. -/
theorem C6_consume_approval_precedence :
    (∀ (cl sub_id approval_id : Nat) (amount : Int)
       (approvals : Nat × Nat → Option RenewalApproval),
       approvals (sub_id, approval_id) = none →
       consume_approval cl sub_id approval_id amount approvals
         = (approvals, [Event.ApprovalRejected sub_id approval_id 4],
            false)) ∧
    (∀ (cl sub_id approval_id : Nat) (amount : Int)
       (approvals : Nat × Nat → Option RenewalApproval) ap,
       approvals (sub_id, approval_id) = some ap → ap.used = true →
       consume_approval cl sub_id approval_id amount approvals
         = (approvals, [Event.ApprovalRejected sub_id approval_id 2],
            false)) ∧
    (∀ (cl sub_id approval_id : Nat) (amount : Int)
       (approvals : Nat × Nat → Option RenewalApproval) ap,
       approvals (sub_id, approval_id) = some ap → ap.used = false →
       ap.expires_at < cl →
       consume_approval cl sub_id approval_id amount approvals
         = (approvals, [Event.ApprovalRejected sub_id approval_id 1],
            false)) ∧
    (∀ (cl sub_id approval_id : Nat) (amount : Int)
       (approvals : Nat × Nat → Option RenewalApproval) ap,
       approvals (sub_id, approval_id) = some ap → ap.used = false →
       ¬ ap.expires_at < cl → ap.max_spend < amount →
       consume_approval cl sub_id approval_id amount approvals
         = (approvals, [Event.ApprovalRejected sub_id approval_id 3],
            false)) ∧
    (∀ (cl sub_id approval_id : Nat) (amount : Int)
       (approvals : Nat × Nat → Option RenewalApproval) ap,
       approvals (sub_id, approval_id) = some ap → ap.used = false →
       ¬ ap.expires_at < cl → ¬ ap.max_spend < amount →
       consume_approval cl sub_id approval_id amount approvals
         = (upd approvals (sub_id, approval_id)
              (some { ap with used := true }), [], true)) ∧
    (∀ (cl cl2 sub_id approval_id : Nat) (amount amount2 : Int)
       (approvals : Nat × Nat → Option RenewalApproval) ap,
       approvals (sub_id, approval_id) = some ap → ap.used = false →
       ¬ ap.expires_at < cl → ¬ ap.max_spend < amount →
       consume_approval cl2 sub_id approval_id amount2
           ((consume_approval cl sub_id approval_id amount approvals).1)
         = ((consume_approval cl sub_id approval_id amount approvals).1,
            [Event.ApprovalRejected sub_id approval_id 2], false)) ∧
    (∀ (cl sub_id approval_id : Nat) (amount : Int)
       (approvals : Nat × Nat → Option RenewalApproval) ap,
       approvals (sub_id, approval_id) = some ap → ap.expires_at < cl →
       (consume_approval cl sub_id approval_id amount approvals).2.2
           = false ∧
       Event.ApprovalRejected sub_id approval_id 3
         ∉ (consume_approval cl sub_id approval_id amount approvals).2.1) := by
  refine ⟨?_, ?_, ?_, ?_, ?_, ?_, ?_⟩
  · intro cl sub_id approval_id amount approvals h
    simp [consume_approval, h]
  · intro cl sub_id approval_id amount approvals ap h hu
    simp [consume_approval, h, hu]
  · intro cl sub_id approval_id amount approvals ap h hu he
    simp [consume_approval, h, hu, he]
  · intro cl sub_id approval_id amount approvals ap h hu he hm
    simp [consume_approval, h, hu, he, hm]
  · intro cl sub_id approval_id amount approvals ap h hu he hm
    simp [consume_approval, h, hu, he, hm]
  · intro cl cl2 sub_id approval_id amount amount2 approvals ap h hu he hm
    simp [consume_approval, h, hu, he, hm, upd_self]
  · intro cl sub_id approval_id amount approvals ap h he
    by_cases hu : ap.used = true
    · simp [consume_approval, h, hu]
    · simp [consume_approval, h, hu, he]

/-- C6 witness: the precedence conclusions instantiated on the concrete
scenario approval map of `sOK` (fresh approval (1, 1), max_spend 1000,
expiry 100) and its consumed variant in `sUsedApproval`. -/
theorem C6_consume_approval_precedence_witness :
    consume_approval 50 2 2 500 sOK.approvals
      = (sOK.approvals, [Event.ApprovalRejected 2 2 4], false) ∧
    consume_approval 50 1 1 500 sUsedApproval.approvals
      = (sUsedApproval.approvals, [Event.ApprovalRejected 1 1 2], false) ∧
    consume_approval 101 1 1 500 sOK.approvals
      = (sOK.approvals, [Event.ApprovalRejected 1 1 1], false) ∧
    consume_approval 50 1 1 2000 sOK.approvals
      = (sOK.approvals, [Event.ApprovalRejected 1 1 3], false) ∧
    consume_approval 50 1 1 500 sOK.approvals
      = (upd sOK.approvals (1, 1) (some { apFresh with used := true }),
         [], true) ∧
    consume_approval 60 1 1 100 ((consume_approval 50 1 1 500
        sOK.approvals).1)
      = ((consume_approval 50 1 1 500 sOK.approvals).1,
         [Event.ApprovalRejected 1 1 2], false) ∧
    ((consume_approval 101 1 1 500 sOK.approvals).2.2 = false ∧
       Event.ApprovalRejected 1 1 3
         ∉ (consume_approval 101 1 1 500 sOK.approvals).2.1) := by
  refine ⟨?_, ?_, ?_, ?_, ?_, ?_, ?_⟩
  · exact C6_consume_approval_precedence.1 50 2 2 500 sOK.approvals rfl
  · exact C6_consume_approval_precedence.2.1 50 1 1 500
      sUsedApproval.approvals { apFresh with used := true } rfl rfl
  · exact C6_consume_approval_precedence.2.2.1 101 1 1 500 sOK.approvals
      apFresh rfl rfl (by decide)
  · exact C6_consume_approval_precedence.2.2.2.1 50 1 1 2000 sOK.approvals
      apFresh rfl rfl (by decide) (by decide)
  · exact C6_consume_approval_precedence.2.2.2.2.1 50 1 1 500 sOK.approvals
      apFresh rfl rfl (by decide) (by decide)
  · exact C6_consume_approval_precedence.2.2.2.2.2.1 50 60 1 1 500 100
      sOK.approvals apFresh rfl rfl (by decide) (by decide)
  · exact C6_consume_approval_precedence.2.2.2.2.2.2 101 1 1 500
      sOK.approvals apFresh rfl (by decide)

/-- C7: with a lock stored at height H and timeout T, re-acquisition aborts
with LockActive at every height strictly below H + T, and at every height
at or after H + T it succeeds, emitting the lock-expired event before the
acquisition event and overwriting the lock; any successful acquisition at
height h with timeout T2 stores exactly the lock (h, T2). -/
theorem C7_lock_reacquisition_window :
    (∀ (auths : Address → Bool) (h sub_id T2 H T : Nat) (s : ContractState),
       s.locks sub_id = some { locked_at := H, lock_timeout := T } →
       is_paused s = false →
       (h < H + T →
         acquire_renewal_lock auths h sub_id T2 s
           = .error "Renewal lock active") ∧
       (H + T ≤ h →
         acquire_renewal_lock auths h sub_id T2 s
           = .ok ({ s with
                    locks := upd s.locks sub_id
                      (some { locked_at := h, lock_timeout := T2 }) },
               [Event.RenewalLockExpired sub_id H h,
                Event.RenewalLockAcquired sub_id h T2]))) ∧
    (∀ (auths : Address → Bool) (h sub_id T : Nat) (s : ContractState) r,
       acquire_renewal_lock auths h sub_id T s = .ok r →
       r.1.locks sub_id = some { locked_at := h, lock_timeout := T }) := by
  constructor
  · intro auths h sub_id T2 H T s hlock hp
    constructor
    · intro hlt
      simp [acquire_renewal_lock, hp, hlock, hlt]
    · intro hge
      simp [acquire_renewal_lock, hp, hlock, Nat.not_lt.mpr hge]
  · intro auths h sub_id T s r hr
    unfold acquire_renewal_lock at hr
    by_cases hp : is_paused s = true
    · simp [hp] at hr
    · rw [if_neg hp] at hr
      cases hl : s.locks sub_id with
      | none =>
          rw [hl] at hr
          simp only [Except.ok.injEq] at hr
          subst hr
          simp [upd_self]
      | some ex =>
          rw [hl] at hr
          by_cases hlt : h < ex.locked_at + ex.lock_timeout
          · simp [hlt] at hr
          · simp only [hlt, if_false, ite_false] at hr
            simp only [Except.ok.injEq] at hr
            subst hr
            simp [upd_self]

/-- C7 witness: on the scenario state `sOK` whose lock for subscription 1
was taken at height 5 with timeout 200, re-acquisition at height 100 aborts
with LockActive and re-acquisition at height 300 succeeds with the expiry
event first; the acquired lock is stored. -/
theorem C7_lock_reacquisition_window_witness :
    acquire_renewal_lock auths0 100 1 50 sOK
      = .error "Renewal lock active" ∧
    acquire_renewal_lock auths0 300 1 100 sOK
      = .ok ({ sOK with
               locks := upd sOK.locks 1
                 (some { locked_at := 300, lock_timeout := 100 }) },
          [Event.RenewalLockExpired 1 5 300,
           Event.RenewalLockAcquired 1 300 100]) ∧
    rAcqVal.1.locks 1 = some { locked_at := 300, lock_timeout := 100 } := by
  refine ⟨?_, ?_, ?_⟩
  · exact (C7_lock_reacquisition_window.1 auths0 100 1 50 5 200 sOK rfl
      rfl).1 (by decide)
  · exact (C7_lock_reacquisition_window.1 auths0 300 1 100 5 200 sOK rfl
      rfl).2 (by decide)
  · exact C7_lock_reacquisition_window.2 auths0 300 1 100 sOK rAcqVal rfl

/-- C9: `init_sub` performs no authentication and no existence check: it
succeeds on any prior state, unconditionally replacing the subscription
record (state Active, failure_count 0, last_attempt_ledger 0) and its
lifecycle timestamps, with the integrity digest recomputed from the newly
supplied parameters, so the new record always passes the digest check. -/
theorem C9_init_sub_unconditional_overwrite :
    ∀ (a1 a2 : Address → Bool) (now owner merchant : Nat) (amount : Int)
      (frequency : Nat) (cap : Int) (sub_id : Nat) (s : ContractState),
      init_sub a1 now owner merchant amount frequency cap sub_id s
        = init_sub a2 now owner merchant amount frequency cap sub_id s ∧
      (init_sub a1 now owner merchant amount frequency cap sub_id s).1.subs
          sub_id
        = some { owner := owner, merchant := merchant, amount := amount,
                 frequency := frequency, spending_cap := cap,
                 integrity_hash :=
                   integrityHash merchant amount frequency cap,
                 state := SubscriptionState.Active, failure_count := 0,
                 last_attempt_ledger := 0 } ∧
      (init_sub a1 now owner merchant amount frequency cap sub_id
          s).1.lifecycles sub_id
        = some { created_at := now, activated_at := now,
                 last_renewed_at := 0, canceled_at := 0 } ∧
      integrityHash merchant amount frequency cap
        = ({ owner := owner, merchant := merchant, amount := amount,
             frequency := frequency, spending_cap := cap,
             integrity_hash := integrityHash merchant amount frequency cap,
             state := SubscriptionState.Active, failure_count := 0,
             last_attempt_ledger := 0 } : SubscriptionData).integrity_hash := by
  intro a1 a2 now owner merchant amount frequency cap sub_id s
  refine ⟨rfl, ?_, ?_, rfl⟩
  · simp [init_sub, upd_self]
  · simp [init_sub, upd_self]

/-- C10: neither `acquire_renewal_lock` nor `renew` consults the
authentication environment: two invocations with identical storage and
arguments but different signature sets give identical results and storage
changes. -/
theorem C10_renewal_path_requires_no_auth :
    ∀ (a1 a2 : Address → Bool) (cl now sub_id approval_id : Nat)
      (amount : Int) (mr cd cy T : Nat) (b : Bool) (s : ContractState),
      acquire_renewal_lock a1 cl sub_id T s
        = acquire_renewal_lock a2 cl sub_id T s ∧
      renew a1 cl now sub_id approval_id amount mr cd cy b s
        = renew a2 cl now sub_id approval_id amount mr cd cy b s := by
  intro a1 a2 cl now sub_id approval_id amount mr cd cy T b s
  exact ⟨rfl, rfl⟩

set_option maxHeartbeats 1600000 in
/-- C8: whenever `renew` returns normally (true on the success branch or
false on the failure branch), the renewal lock entry for that subscription
is absent from storage afterward, and the released event was published. -/
theorem C8_renew_always_releases_lock :
    ∀ (auths : Address → Bool) (cl now sub_id approval_id : Nat)
      (amount : Int) (mr cd cy : Nat) (b : Bool) (s : ContractState) r,
      renew auths cl now sub_id approval_id amount mr cd cy b s = .ok r →
      r.1.locks sub_id = none ∧
      Event.RenewalLockReleased sub_id cl ∈ r.2.1 := by
  intro auths cl now sub_id approval_id amount mr cd cy b s r h
  unfold renew at h
  repeat' split at h
  all_goals cases h
  all_goals simp [upd_self, upd]

/-- C8 witness: both the successful scenario renewal and the failed one on
`sOK` leave no lock for subscription 1 and publish the released event. -/
theorem C8_renew_always_releases_lock_witness :
    (rSuccessVal.1.locks 1 = none ∧
       Event.RenewalLockReleased 1 50 ∈ rSuccessVal.2.1) ∧
    (rFailureVal.1.locks 1 = none ∧
       Event.RenewalLockReleased 1 50 ∈ rFailureVal.2.1) := by
  constructor
  · exact C8_renew_always_releases_lock auths0 50 123 1 1 500 3 10 7 true
      sOK rSuccessVal rfl
  · exact C8_renew_always_releases_lock auths0 50 123 1 1 500 3 10 7 false
      sOK rFailureVal rfl

/-- C2: every abort of `renew` commits nothing — the invocation-level
transaction returns the pre-state with no events — and in particular when
the integrity check fails after the approval was consumed, the whole
approval map (hence the consumed approval's used flag) is exactly as
before the call; the succeed = false business outcome, by contrast,
returns normally and commits. -/
theorem C2_aborts_roll_back_completely :
    (∀ (auths : Address → Bool) (cl now sub_id approval_id : Nat)
       (amount : Int) (mr cd cy : Nat) (b : Bool) (s : ContractState)
       (e : String),
       renew auths cl now sub_id approval_id amount mr cd cy b s
         = .error e →
       renewTx auths cl now sub_id approval_id amount mr cd cy b s
         = (s, [], none)) ∧
    (∀ (auths : Address → Bool) (cl now sub_id approval_id : Nat)
       (amount : Int) (mr cd cy : Nat) (b : Bool) (s : ContractState)
       data ld,
       is_paused s = false →
       s.subs sub_id = some data →
       data.state ≠ SubscriptionState.Failed →
       s.locks sub_id = some ld →
       cl < ld.locked_at + ld.lock_timeout →
       ¬ s.cycles sub_id = some cy →
       ¬ (data.failure_count > 0 ∧ cl < data.last_attempt_ledger + cd) →
       (consume_approval cl sub_id approval_id amount s.approvals).2.2
         = true →
       integrityHash data.merchant data.amount data.frequency
           data.spending_cap ≠ data.integrity_hash →
       renew auths cl now sub_id approval_id amount mr cd cy b s
         = .error "Subscription integrity violation: parameters tampered" ∧
       (renewTx auths cl now sub_id approval_id amount mr cd cy b s).1
         = s) ∧
    (∀ (auths : Address → Bool) (cl now sub_id approval_id : Nat)
       (amount : Int) (mr cd cy : Nat) (s : ContractState) data ld,
       is_paused s = false →
       s.subs sub_id = some data →
       data.state ≠ SubscriptionState.Failed →
       s.locks sub_id = some ld →
       cl < ld.locked_at + ld.lock_timeout →
       ¬ s.cycles sub_id = some cy →
       ¬ (data.failure_count > 0 ∧ cl < data.last_attempt_ledger + cd) →
       (consume_approval cl sub_id approval_id amount s.approvals).2.2
         = true →
       integrityHash data.merchant data.amount data.frequency
           data.spending_cap = data.integrity_hash →
       (renew auths cl now sub_id approval_id amount mr cd cy false
           s).toOption.isSome = true) := by
  refine ⟨?_, ?_, ?_⟩
  · intro auths cl now sub_id approval_id amount mr cd cy b s e h
    simp [renewTx, h]
  · intro auths cl now sub_id approval_id amount mr cd cy b s data ld
      hp hsub hst hlk hlive hcy hcool hcons hbad
    have hlive2 : ¬ (ld.locked_at + ld.lock_timeout ≤ cl) :=
      Nat.not_le.mpr hlive
    constructor
    · simp [renew, hp, hsub, hst, hlk, hlive2, hcy, hcool, hcons, hbad]
    · simp [renewTx, renew, hp, hsub, hst, hlk, hlive2, hcy, hcool, hcons,
        hbad]
  · intro auths cl now sub_id approval_id amount mr cd cy s data ld
      hp hsub hst hlk hlive hcy hcool hcons hgood
    have hlive2 : ¬ (ld.locked_at + ld.lock_timeout ≤ cl) :=
      Nat.not_le.mpr hlive
    simp [renew, hp, hsub, hst, hlk, hlive2, hcy, hcool, hcons, hgood,
      Except.toOption]

/-- C2 witness: the Failed-record abort on `sFailedSub` rolls back; on the
tampered state `sTampered` (whose fresh approval (1, 1) is consumable) the
integrity check aborts and the post-transaction state — approvals included
— is the pre-state; the failed business outcome on `sOK` returns normally. -/
theorem C2_aborts_roll_back_completely_witness :
    renewTx auths0 50 123 1 1 500 3 10 7 true sFailedSub
      = (sFailedSub, [], none) ∧
    renew auths0 50 123 1 1 500 3 10 7 true sTampered
      = .error "Subscription integrity violation: parameters tampered" ∧
    (renewTx auths0 50 123 1 1 500 3 10 7 true sTampered).1 = sTampered ∧
    (renew auths0 50 123 1 1 500 3 10 7 false sOK).toOption.isSome
      = true := by
  refine ⟨?_, ?_, ?_, ?_⟩
  · exact C2_aborts_roll_back_completely.1 auths0 50 123 1 1 500 3 10 7
      true sFailedSub "Subscription is in FAILED state" rfl
  · exact (C2_aborts_roll_back_completely.2.1 auths0 50 123 1 1 500 3 10 7
      true sTampered
      { subActive with integrity_hash := integrityHash 3 500 86400 1000 }
      lock0 rfl rfl (by decide) rfl (by decide) (by decide) (by decide)
      rfl (by decide)).1
  · exact (C2_aborts_roll_back_completely.2.1 auths0 50 123 1 1 500 3 10 7
      true sTampered
      { subActive with integrity_hash := integrityHash 3 500 86400 1000 }
      lock0 rfl rfl (by decide) rfl (by decide) (by decide) (by decide)
      rfl (by decide)).2
  · exact C2_aborts_roll_back_completely.2.2 auths0 50 123 1 1 500 3 10 7
      sOK subActive lock0 rfl rfl (by decide) rfl (by decide) (by decide)
      (by decide) rfl (by decide)

set_option maxHeartbeats 1600000 in
/-- C5: a `renew` whose cycle_id equals the stored cycle marker aborts with
DuplicateCycle (once the pause/record/Failed/lock guards admit it), and the
marker is written only by the success branch: a failed renewal leaves the
marker unchanged — and necessarily different from the cycle id it used, so
that id passes the cycle guard again — while a successful renewal sets the
marker to its cycle id. -/
theorem C5_cycle_marker_success_only :
    (∀ (auths : Address → Bool) (cl now sub_id approval_id : Nat)
       (amount : Int) (mr cd cy : Nat) (b : Bool) (s : ContractState)
       data ld,
       is_paused s = false →
       s.subs sub_id = some data →
       data.state ≠ SubscriptionState.Failed →
       s.locks sub_id = some ld →
       cl < ld.locked_at + ld.lock_timeout →
       s.cycles sub_id = some cy →
       renew auths cl now sub_id approval_id amount mr cd cy b s
         = .error "Duplicate renewal for cycle") ∧
    (∀ (auths : Address → Bool) (cl now sub_id approval_id : Nat)
       (amount : Int) (mr cd cy : Nat) (s : ContractState) r,
       renew auths cl now sub_id approval_id amount mr cd cy false s
         = .ok r →
       r.1.cycles = s.cycles ∧ r.1.cycles sub_id ≠ some cy) ∧
    (∀ (auths : Address → Bool) (cl now sub_id approval_id : Nat)
       (amount : Int) (mr cd cy : Nat) (s : ContractState) r,
       renew auths cl now sub_id approval_id amount mr cd cy true s
         = .ok r →
       r.1.cycles = upd s.cycles sub_id (some cy)) := by
  refine ⟨?_, ?_, ?_⟩
  · intro auths cl now sub_id approval_id amount mr cd cy b s data ld
      hp hsub hst hlk hlive hcy
    have hlive2 : ¬ (ld.locked_at + ld.lock_timeout ≤ cl) :=
      Nat.not_le.mpr hlive
    simp [renew, hp, hsub, hst, hlk, hlive2, hcy]
  · intro auths cl now sub_id approval_id amount mr cd cy s r h
    unfold renew at h
    repeat' split at h
    all_goals cases h
    all_goals simp_all [upd_self, upd]
  · intro auths cl now sub_id approval_id amount mr cd cy s r h
    unfold renew at h
    repeat' split at h
    all_goals cases h
    all_goals simp_all [upd_self, upd]

/-- C5 witness: on `sDup` (marker of subscription 1 set to 7) a renew with
cycle 7 aborts with DuplicateCycle; the failed scenario renewal on `sOK`
leaves the marker map unchanged and distinct from its cycle id 7; the
successful one sets the marker to 7. -/
theorem C5_cycle_marker_success_only_witness :
    renew auths0 50 123 1 1 500 3 10 7 true sDup
      = .error "Duplicate renewal for cycle" ∧
    (rFailureVal.1.cycles = sOK.cycles ∧
       rFailureVal.1.cycles 1 ≠ some 7) ∧
    rSuccessVal.1.cycles = upd sOK.cycles 1 (some 7) := by
  refine ⟨?_, ?_, ?_⟩
  · exact C5_cycle_marker_success_only.1 auths0 50 123 1 1 500 3 10 7 true
      sDup subActive lock0 rfl rfl (by decide) rfl (by decide) rfl
  · exact C5_cycle_marker_success_only.2.1 auths0 50 123 1 1 500 3 10 7
      sOK rFailureVal rfl
  · exact C5_cycle_marker_success_only.2.2 auths0 50 123 1 1 500 3 10 7
      sOK rSuccessVal rfl

/-- C1 counterexample: the claim that `renew` aborts on a Cancelled record
is false — on `sCancelledSub` (subscription 1 Cancelled, valid lock,
approval and digest) the renewal returns normally with true and moves the
record from Cancelled back to Active. -/
theorem C1_cancelled_not_terminal_counterexample :
    (sCancelledSub.subs 1).map SubscriptionData.state
      = some SubscriptionState.Cancelled ∧
    rUnCancel.toOption.map
        (fun r => ((r.1.subs 1).map SubscriptionData.state, r.2.2))
      = some (some SubscriptionState.Active, true) := ⟨rfl, rfl⟩

set_option maxHeartbeats 1600000 in
/-- C1 (amended): `renew` aborts without change only on a Failed record
(pause permitting); a returning renewal sets the state to Active on the
success branch — from any non-Failed state, Cancelled included — and to
Retrying or Failed on the failure branch; `cancel_sub` always produces
Cancelled when it returns and aborts on an already-Cancelled record. -/
theorem C1_state_machine_amended :
    (∀ (auths : Address → Bool) (cl now sub_id approval_id : Nat)
       (amount : Int) (mr cd cy : Nat) (b : Bool) (s : ContractState) data,
       is_paused s = false →
       s.subs sub_id = some data →
       data.state = SubscriptionState.Failed →
       renew auths cl now sub_id approval_id amount mr cd cy b s
         = .error "Subscription is in FAILED state" ∧
       renewTx auths cl now sub_id approval_id amount mr cd cy b s
         = (s, [], none)) ∧
    (∀ (auths : Address → Bool) (cl now sub_id approval_id : Nat)
       (amount : Int) (mr cd cy : Nat) (s : ContractState) r,
       renew auths cl now sub_id approval_id amount mr cd cy true s
         = .ok r →
       (r.1.subs sub_id).map SubscriptionData.state
         = some SubscriptionState.Active) ∧
    (∀ (auths : Address → Bool) (cl now sub_id approval_id : Nat)
       (amount : Int) (mr cd cy : Nat) (s : ContractState) r,
       renew auths cl now sub_id approval_id amount mr cd cy false s
         = .ok r →
       (r.1.subs sub_id).map SubscriptionData.state
           = some SubscriptionState.Retrying ∨
       (r.1.subs sub_id).map SubscriptionData.state
           = some SubscriptionState.Failed) ∧
    (∀ (auths : Address → Bool) (now sub_id : Nat) (s : ContractState) r,
       cancel_sub auths now sub_id s = .ok r →
       (r.1.subs sub_id).map SubscriptionData.state
         = some SubscriptionState.Cancelled) ∧
    (∀ (auths : Address → Bool) (now sub_id : Nat) (s : ContractState) data,
       s.subs sub_id = some data →
       auths data.owner = true →
       data.state = SubscriptionState.Cancelled →
       cancel_sub auths now sub_id s
         = .error "Subscription already cancelled") := by
  refine ⟨?_, ?_, ?_, ?_, ?_⟩
  · intro auths cl now sub_id approval_id amount mr cd cy b s data hp hsub
      hf
    constructor
    · simp [renew, hp, hsub, hf]
    · simp [renewTx, renew, hp, hsub, hf]
  · intro auths cl now sub_id approval_id amount mr cd cy s r h
    unfold renew at h
    repeat' split at h
    all_goals cases h
    all_goals simp_all [upd_self, upd]
  · intro auths cl now sub_id approval_id amount mr cd cy s r h
    unfold renew at h
    repeat' split at h
    all_goals cases h
    all_goals simp_all [upd_self, upd]
    all_goals omega
  · intro auths now sub_id s r h
    unfold cancel_sub at h
    repeat' split at h
    all_goals cases h
    all_goals simp_all [upd_self, upd]
  · intro auths now sub_id s data hsub hauth hcan
    simp [cancel_sub, hsub, hauth, hcan]

/-- C1 witness: the Failed record of `sFailedSub` makes renew abort with
rollback; the successful renewal of the Cancelled subscription ends
Active; the failed scenario renewal ends Retrying or Failed; cancelling
subscription 1 of `sOK` ends Cancelled; cancelling the already-Cancelled
one aborts. -/
theorem C1_state_machine_amended_witness :
    (renew auths0 50 123 1 1 500 3 10 7 true sFailedSub
        = .error "Subscription is in FAILED state" ∧
     renewTx auths0 50 123 1 1 500 3 10 7 true sFailedSub
        = (sFailedSub, [], none)) ∧
    (rUnCancelVal.1.subs 1).map SubscriptionData.state
      = some SubscriptionState.Active ∧
    ((rFailureVal.1.subs 1).map SubscriptionData.state
        = some SubscriptionState.Retrying ∨
     (rFailureVal.1.subs 1).map SubscriptionData.state
        = some SubscriptionState.Failed) ∧
    (rCancelVal.1.subs 1).map SubscriptionData.state
      = some SubscriptionState.Cancelled ∧
    cancel_sub auths0 77 1 sCancelledSub
      = .error "Subscription already cancelled" := by
  refine ⟨?_, ?_, ?_, ?_, ?_⟩
  · exact C1_state_machine_amended.1 auths0 50 123 1 1 500 3 10 7 true
      sFailedSub { subActive with state := SubscriptionState.Failed }
      rfl rfl rfl
  · exact C1_state_machine_amended.2.1 auths0 50 123 1 1 500 3 10 7
      sCancelledSub rUnCancelVal rfl
  · exact C1_state_machine_amended.2.2.1 auths0 50 123 1 1 500 3 10 7
      sOK rFailureVal rfl
  · exact C1_state_machine_amended.2.2.2.1 auths0 77 1 sOK rCancelVal rfl
  · exact C1_state_machine_amended.2.2.2.2 auths0 77 1 sCancelledSub
      { subActive with state := SubscriptionState.Cancelled } rfl rfl rfl

/-- C3 counterexample: the claim that no operation ever resets used=true is
false — on `sUsedApproval`, whose approval (1, 1) is used, an owner call of
`approve_renewal` for the same (sub_id, approval_id) overwrites the record
with used=false, making it consumable again. -/
theorem C3_reapproval_resets_used_counterexample :
    (sUsedApproval.approvals (1, 1)).map RenewalApproval.used = some true ∧
    rReapprove.toOption.map
        (fun r => (r.1.approvals (1, 1)).map RenewalApproval.used)
      = some (some false) := ⟨rfl, rfl⟩

set_option maxHeartbeats 1600000 in
/-- C3 (amended): `consume_approval` and `renew` never reset a used=true
flag — any already-used approval key is left untouched by them; the one
operation that makes the key consumable again is `approve_renewal` itself,
which (after owner authentication) unconditionally overwrites the record
at (sub_id, approval_id) with used=false. -/
theorem C3_used_flag_reset_only_by_reapproval :
    (∀ (cl sub_id approval_id : Nat) (amount : Int)
       (approvals : Nat × Nat → Option RenewalApproval) (k : Nat × Nat),
       (approvals k).map RenewalApproval.used = some true →
       (consume_approval cl sub_id approval_id amount approvals).1 k
         = approvals k) ∧
    (∀ (auths : Address → Bool) (cl now sub_id approval_id : Nat)
       (amount : Int) (mr cd cy : Nat) (b : Bool) (s : ContractState) r
       (k : Nat × Nat),
       (s.approvals k).map RenewalApproval.used = some true →
       renew auths cl now sub_id approval_id amount mr cd cy b s = .ok r →
       r.1.approvals k = s.approvals k) ∧
    (∀ (auths : Address → Bool) (sub_id approval_id : Nat)
       (max_spend : Int) (expires_at : Nat) (s : ContractState) r,
       approve_renewal auths sub_id approval_id max_spend expires_at s
         = .ok r →
       r.1.approvals (sub_id, approval_id)
         = some { sub_id := sub_id, max_spend := max_spend,
                  expires_at := expires_at, used := false }) := by
  refine ⟨?_, ?_, ?_⟩
  · intro cl sub_id approval_id amount approvals k h
    exact consume_preserves_used cl sub_id approval_id amount approvals k h
  · intro auths cl now sub_id approval_id amount mr cd cy b s r k hk h
    unfold renew at h
    repeat' split at h
    all_goals cases h
    all_goals
      exact consume_preserves_used cl sub_id approval_id amount
        s.approvals k hk
  · intro auths sub_id approval_id max_spend expires_at s r h
    unfold approve_renewal at h
    repeat' split at h
    all_goals cases h
    all_goals simp [upd_self]

/-- C3 witness: consuming (1, 1) on `sUsedApproval` leaves the used record
in place; the successful renewal on `sUsedPlus` leaves the used approval
(1, 2) untouched; re-approving (1, 1) on `sUsedApproval` stores a fresh
used=false record. -/
theorem C3_used_flag_reset_only_by_reapproval_witness :
    (consume_approval 50 1 1 500 sUsedApproval.approvals).1 (1, 1)
      = sUsedApproval.approvals (1, 1) ∧
    rUsedPlusVal.1.approvals (1, 2) = sUsedPlus.approvals (1, 2) ∧
    rReapproveVal.1.approvals (1, 1)
      = some { sub_id := 1, max_spend := 1000, expires_at := 100,
               used := false } := by
  refine ⟨?_, ?_, ?_⟩
  · exact C3_used_flag_reset_only_by_reapproval.1 50 1 1 500
      sUsedApproval.approvals (1, 1) rfl
  · exact C3_used_flag_reset_only_by_reapproval.2.1 auths0 50 123 1 1 500
      3 10 7 true sUsedPlus rUsedPlusVal (1, 2) rfl rfl
  · exact C3_used_flag_reset_only_by_reapproval.2.2 auths0 1 1 1000 100
      sUsedApproval rReapproveVal rfl

/-- C4 counterexample: the claim that the state is Failed after max_retries
consecutive failed renewals is false — in the retry scenario with
max_retries = 3, after exactly three failed renewals (cooldown respected
each time) the state is Retrying with failure_count 3, not Failed. -/
theorem C4_after_max_retries_failures_counterexample :
    c4After3.map (fun s => (s.subs 1).map
        (fun d => (d.state, d.failure_count)))
      = some (some (SubscriptionState.Retrying, 3)) := by rfl

set_option maxHeartbeats 1600000 in
/-- C4 (amended): each committed failed renewal increments failure_count
and moves to Failed exactly when the new count exceeds max_retries (so
Failed is reached after max_retries + 1 consecutive failures, not after
max_retries); once the record is Failed every renew call aborts; in the
spec scenario with max_retries = 3 the fourth failure yields Failed with
failure_count 4 and the fifth call aborts with the Failed-state error. -/
theorem C4_failed_after_exceeding_max_retries :
    (∀ (auths : Address → Bool) (cl now sub_id approval_id : Nat)
       (amount : Int) (mr cd cy : Nat) (s : ContractState) data ld,
       is_paused s = false →
       s.subs sub_id = some data →
       data.state ≠ SubscriptionState.Failed →
       s.locks sub_id = some ld →
       cl < ld.locked_at + ld.lock_timeout →
       ¬ s.cycles sub_id = some cy →
       ¬ (data.failure_count > 0 ∧ cl < data.last_attempt_ledger + cd) →
       (consume_approval cl sub_id approval_id amount s.approvals).2.2
         = true →
       integrityHash data.merchant data.amount data.frequency
           data.spending_cap = data.integrity_hash →
       (renew auths cl now sub_id approval_id amount mr cd cy false
           s).toOption.map
           (fun r => ((r.1.subs sub_id).map
             (fun d => (d.state, d.failure_count, d.last_attempt_ledger)),
             r.2.2))
         = some (some ((if data.failure_count + 1 > mr then
               SubscriptionState.Failed else SubscriptionState.Retrying),
             data.failure_count + 1, cl), false)) ∧
    (∀ (auths : Address → Bool) (cl now sub_id approval_id : Nat)
       (amount : Int) (mr cd cy : Nat) (b : Bool) (s : ContractState) data,
       is_paused s = false →
       s.subs sub_id = some data →
       data.state = SubscriptionState.Failed →
       renew auths cl now sub_id approval_id amount mr cd cy b s
         = .error "Subscription is in FAILED state") ∧
    c4After4.map (fun s => (s.subs 1).map
        (fun d => (d.state, d.failure_count)))
      = some (some (SubscriptionState.Failed, 4)) ∧
    c4Fifth = some (.error "Subscription is in FAILED state") := by
  refine ⟨?_, ?_, by rfl, by rfl⟩
  · intro auths cl now sub_id approval_id amount mr cd cy s data ld
      hp hsub hst hlk hlive hcy hcool hcons hgood
    have hlive2 : ¬ (ld.locked_at + ld.lock_timeout ≤ cl) :=
      Nat.not_le.mpr hlive
    simp [renew, hp, hsub, hst, hlk, hlive2, hcy, hcool, hcons, hgood,
      Except.toOption, upd_self]
  · intro auths cl now sub_id approval_id amount mr cd cy b s data hp hsub
      hf
    simp [renew, hp, hsub, hf]

/-- C4 witness: the first failed renewal on `sOK` (failure_count 0,
max_retries 3) commits Retrying with count 1 at height 50, and renew on the
Failed record of `sFailedSub` aborts. -/
theorem C4_failed_after_exceeding_max_retries_witness :
    (renew auths0 50 123 1 1 500 3 10 7 false sOK).toOption.map
        (fun r => ((r.1.subs 1).map
          (fun d => (d.state, d.failure_count, d.last_attempt_ledger)),
          r.2.2))
      = some (some (SubscriptionState.Retrying, 1, 50), false) ∧
    renew auths0 50 123 1 1 500 3 10 7 true sFailedSub
      = .error "Subscription is in FAILED state" := by
  constructor
  · have h := C4_failed_after_exceeding_max_retries.1 auths0 50 123 1 1 500
      3 10 7 sOK subActive lock0 rfl rfl (by decide) rfl (by decide)
      (by decide) (by decide) rfl (by decide)
    simpa using h
  · exact C4_failed_after_exceeding_max_retries.2.1 auths0 50 123 1 1 500
      3 10 7 true sFailedSub { subActive with state := SubscriptionState.Failed }
      rfl rfl rfl
